import Mathlib

/-!
Shallow embedding of the idem-azurerm resource-group state module
(`idem_azurerm/states/azurerm/resource/group.py`) and of the storage
blob-container execution module
(`idem_provider_azurerm/exec/azurerm/storage/container.py`).

Python dictionaries with string keys and string values are embedded as
association lists; provider responses are supplied by an oracle record so
that each state function becomes a pure function of its arguments and of
the outcomes the provider would return, together with the trace of remote
calls it issues.
-/

/-- A Python `str -> str` dict, embedded as an association list. -/
abbrev Tags := List (String × String)

/-- A credential dict (`connection_auth` / `ctx["acct"]`): its contents are
only forwarded to provider calls, never inspected by the state logic. -/
abbrev Auth := List (String × String)

/-- Output shape of the external `dict_tools.differ.deep_diff` on flat
string dicts: the surviving `old` and `new` bindings (the Python function
returns `{}`, `{"old": ...}`, `{"new": ...}` or both keys). -/
structure DiffResult where
  old : Tags
  new : Tags
deriving DecidableEq, Repr

/-- Flat-dict behaviour of the external `dict_tools.differ.deep_diff`
called at group.py line 136 (the spec describes it as an
order-independent key/value comparison with a missing key treated as
absent): a binding survives on one side exactly when the other side does
not bind the same key to an equal value; the diff is empty iff the two
dicts are equal as finite maps. -/
def deep_diff (old new : Tags) : DiffResult :=
  { old := old.filter fun kv => new.lookup kv.1 != some kv.2
    new := new.filter fun kv => old.lookup kv.1 != some kv.2 }

/-- Python truthiness of the diff dict (`if not ret["changes"]`). -/
def DiffResult.isEmpty (d : DiffResult) : Bool :=
  d.old.isEmpty && d.new.isEmpty

namespace ResourceGroup

/-- The provider's resource-group dict as returned by
`hub.exec.azurerm.resource.group.get` / `create_or_update`;
`tags = none` embeds a response dict without a `"tags"` key, so that
`group.get("tags", {})` becomes `tags.getD []`. -/
structure Group where
  name : String
  location : String
  managed_by : Option String
  tags : Option Tags
deriving DecidableEq, Repr

/-- The slice of the idem `ctx` the state functions read: the ambient
credential dict `ctx["acct"]` (Python-truthy iff non-empty) and the
dry-run flag `ctx["test"]`. -/
structure Ctx where
  acct : Auth
  test : Bool
deriving DecidableEq, Repr

/-- Oracle for the provider calls a state function may issue: the outcome
`hub.exec.azurerm.resource.group.get` would return (`.error e` embeds the
dict `{"error": e}`), the outcome of `create_or_update`, and the boolean
returned by `delete`. -/
structure Hub where
  getResult : Except String Group
  createResult : Except String Group
  deleteResult : Bool

/-- The remote calls a state function can issue, in issue order. -/
inductive Call where
  | get
  | createOrUpdate
  | delete
deriving DecidableEq, Repr

/-- A value stored under `"old"` or `"new"` in a `changes` dict: Python
`None` (the raw `tags` parameter may be `None`), a string dict (`{}` is
`.tags []`), a full provider group dict, or the desired-spec dict
`{"name": ..., "location": ..., "managed_by": ..., "tags": ...}`
built at group.py lines 152-160. -/
inductive ChangeVal where
  | pynone : ChangeVal
  | tags : Tags → ChangeVal
  | group : Group → ChangeVal
  | spec : String → String → Option String → Option Tags → ChangeVal
deriving DecidableEq, Repr

/-- The raw `tags` parameter as stored at group.py line 146
(`"new": tags`): `None` stays `None`, a dict stays a dict. -/
def ChangeVal.ofOptTags : Option Tags → ChangeVal
  | none => .pynone
  | some t => .tags t

/-- The `changes` field of a state return: the empty dict, a
`deep_diff` output, or an explicitly built `{"old": o, "new": n}` dict. -/
inductive Changes where
  | empty : Changes
  | diff : DiffResult → Changes
  | oldNew : ChangeVal → ChangeVal → Changes
deriving DecidableEq, Repr

/-- The `ret` dict of a state function:
`{"name": ..., "result": ..., "comment": ..., "changes": ...}` with the
Python tri-state `True | False | None` embedded as `Option Bool`
(`none` is Python `None`). -/
structure StateReturn where
  name : String
  result : Option Bool
  comment : String
  changes : Changes
deriving DecidableEq, Repr

/-- A state function's return dict together with the trace of remote
calls it issued. -/
structure Outcome where
  ret : StateReturn
  calls : List Call
deriving DecidableEq, Repr

/-- The mutation step of `present` (group.py lines 163-181): call
`create_or_update`; on a response without `"error"`, success with
`changes = {"old": {}, "new": group}`; otherwise failure, the comment
embeds the provider error string, and since `ret["result"]` is still
`False` at line 179 the changes are reset to `{}`. The `location`,
`managed_by` and `tags` arguments are forwarded to the call; the outcome
is the oracle's `createResult`. -/
def presentCreate (hub : Hub) (name _location : String)
    (_managed_by : Option String) (_tags : Option Tags) : Outcome :=
  match hub.createResult with
  | .ok group =>
    { ret := { name := name, result := some true
               comment := "Resource group " ++ name ++ " has been created."
               changes := .oldNew (.tags []) (.group group) }
      calls := [.get, .createOrUpdate] }
  | .error e =>
    { ret := { name := name, result := some false
               comment := "Failed to create resource group " ++ name ++ "! (" ++ e ++ ")"
               changes := .empty }
      calls := [.get, .createOrUpdate] }

/-- Embedding of `present` (group.py lines 79-181). `connection_auth` is
`none` when the Python argument is not a dict; if it is not a dict and
`ctx["acct"]` is falsy, the configuration failure is returned before any
remote call. Otherwise `get` is called; on a response without `"error"`
the tag diff decides between terminal success, dry-run preview, and the
mutation step; on an `"error"` response dry-run previews the creation and
normal mode proceeds to the mutation step. -/
def present (hub : Hub) (ctx : Ctx) (name location : String)
    (managed_by : Option String) (tags : Option Tags)
    (connection_auth : Option Auth) : Outcome :=
  if connection_auth.isNone && ctx.acct.isEmpty then
    { ret := { name := name, result := some false
               comment := "Connection information must be specified via acct or connection_auth dictionary!"
               changes := .empty }
      calls := [] }
  else
    match hub.getResult with
    | .ok group =>
      let d := deep_diff (group.tags.getD []) (tags.getD [])
      if d.isEmpty then
        { ret := { name := name, result := some true
                   comment := "Resource group " ++ name ++ " is already present."
                   changes := .empty }
          calls := [.get] }
      else if ctx.test then
        { ret := { name := name, result := none
                   comment := "Resource group " ++ name ++ " tags would be updated."
                   changes := .oldNew (.tags (group.tags.getD [])) (ChangeVal.ofOptTags tags) }
          calls := [.get] }
      else
        presentCreate hub name location managed_by tags
    | .error _e =>
      if ctx.test then
        { ret := { name := name, result := none
                   comment := "Resource group " ++ name ++ " would be created."
                   changes := .oldNew (.tags []) (.spec name location managed_by tags) }
          calls := [.get] }
      else
        presentCreate hub name location managed_by tags

/-- Embedding of `absent` (group.py lines 184-238): configuration check,
then `get`; an `"error"` response is treated as already absent (terminal
success, no delete); otherwise dry-run previews the deletion, and normal
mode issues `delete`, whose boolean result decides success
(`changes = {"old": group, "new": {}}`) or failure (comment only,
changes left `{}`). -/
def absent (hub : Hub) (ctx : Ctx) (name : String)
    (connection_auth : Option Auth) : Outcome :=
  if connection_auth.isNone && ctx.acct.isEmpty then
    { ret := { name := name, result := some false
               comment := "Connection information must be specified via acct or connection_auth dictionary!"
               changes := .empty }
      calls := [] }
  else
    match hub.getResult with
    | .error _e =>
      { ret := { name := name, result := some true
                 comment := "Resource group " ++ name ++ " is already absent."
                 changes := .empty }
        calls := [.get] }
    | .ok group =>
      if ctx.test then
        { ret := { name := name, result := none
                   comment := "Resource group " ++ name ++ " would be deleted."
                   changes := .oldNew (.group group) (.tags []) }
          calls := [.get] }
      else if hub.deleteResult then
        { ret := { name := name, result := some true
                   comment := "Resource group " ++ name ++ " has been deleted."
                   changes := .oldNew (.group group) (.tags []) }
          calls := [.get, .delete] }
      else
        { ret := { name := name, result := some false
                   comment := "Failed to delete resource group " ++ name ++ "!"
                   changes := .empty }
          calls := [.get, .delete] }

end ResourceGroup

namespace StorageContainer

/-- A provider SDK model object (e.g. a `BlobContainer` or
`ImmutabilityPolicy` instance); `fields` is what `as_dict()` returns. -/
structure ProviderObj where
  fields : List (String × String)
deriving DecidableEq, Repr

/-- The value a Resource Accessor operation returns: a plain dict (a
field mapping obtained via `as_dict()`), the uniform `{"error": msg}`
dict, or a raw provider object returned without `as_dict()`. -/
inductive AccessorResult where
  | dict : List (String × String) → AccessorResult
  | errorDict : String → AccessorResult
  | obj : ProviderObj → AccessorResult
deriving DecidableEq, Repr

/-- Outcome of running a Python function body: a returned value, or an
uncaught exception (named by its class) escaping the function. -/
inductive PyOutcome (α : Type) where
  | ret : α → PyOutcome α
  | exn : String → PyOutcome α
deriving DecidableEq, Repr

/-- Oracle for the two calls `lease` makes:
`hub.exec.utils.azurerm.create_object_model` (a `TypeError` during model
build is `.error msg`) and `storconn.blob_containers.lease` (a
`CloudError` is `.error e`, success yields the container object). -/
structure LeaseEnv where
  createObjectModel : Except String Unit
  leaseCall : Except String ProviderObj

/-- Embedding of `lease` (container.py lines 436-489). A model-build
`TypeError` and a provider `CloudError` are both converted to
`{"error": ...}` dicts. On a SUCCESSFUL provider call, line 484 executes
`result = policy.as_dict()`, but the name `policy` is never bound
anywhere in `lease` (the call's result was bound to `container`), so
Python raises `NameError`, which no except clause of `lease` catches:
the exception escapes the accessor. -/
def lease (env : LeaseEnv) : PyOutcome AccessorResult :=
  match env.createObjectModel with
  | .error exc =>
    .ret (.errorDict ("The object model could not be built. (" ++ exc ++ ")"))
  | .ok _leasemodel =>
    match env.leaseCall with
    | .error exc => .ret (.errorDict exc)
    | .ok _container => .exn "NameError"

/-- Oracle for the single provider call of `extend_immutability_policy`
and `lock_immutability_policy`. -/
structure PolicyEnv where
  policyCall : Except String ProviderObj

/-- Embedding of `extend_immutability_policy` (container.py lines
300-348): a `CloudError` becomes `{"error": ...}`; on success line 343
returns `result = policy` — the RAW provider object, with no `as_dict()`
conversion. -/
def extend_immutability_policy (env : PolicyEnv) : PyOutcome AccessorResult :=
  match env.policyCall with
  | .ok policy => .ret (.obj policy)
  | .error exc => .ret (.errorDict exc)

/-- Embedding of `lock_immutability_policy` (container.py lines 530-570):
same shape as `extend_immutability_policy`; line 565 returns the raw
provider object. -/
def lock_immutability_policy (env : PolicyEnv) : PyOutcome AccessorResult :=
  match env.policyCall with
  | .ok policy => .ret (.obj policy)
  | .error exc => .ret (.errorDict exc)

/-- Embedding of `get` (container.py lines 351-388): success returns
`container.as_dict()`, a `CloudError` returns `{"error": ...}`. -/
def get (env : PolicyEnv) : PyOutcome AccessorResult :=
  match env.policyCall with
  | .ok container => .ret (.dict container.fields)
  | .error exc => .ret (.errorDict exc)

end StorageContainer

open ResourceGroup

/-- When explicit credentials are a dict or the ambient `ctx["acct"]` is
truthy, the configuration guard of `present` / `absent` does not fire. -/
theorem cred_guard_false (connection_auth : Option Auth) (acct : Auth)
    (h : connection_auth.isSome = true ∨ acct ≠ []) :
    (connection_auth.isNone && acct.isEmpty) = false := by
  cases connection_auth with
  | some a => rfl
  | none =>
    rcases h with h | h
    · simp at h
    · cases acct with
      | nil => exact absurd rfl h
      | cons x xs => rfl

/-- Desired tags used by the concrete scenarios. -/
def sampleTags : Tags := [("env", "prod")]

/-- Explicit credential dict used by the concrete scenarios. -/
def sampleAuth : Auth := [("subscription_id", "sub1")]

/-- A remote resource group whose tags match `sampleTags`. -/
def sampleGroup : Group :=
  { name := "rg1", location := "eastus", managed_by := none, tags := some sampleTags }

/-- A remote resource group with matching tags but drifted `location`
and `managed_by`. -/
def driftGroup : Group :=
  { name := "rg1", location := "westus", managed_by := some "mgr", tags := some sampleTags }

/-- Oracle: the resource exists with `sampleGroup`; mutations succeed. -/
def hubMatch : Hub :=
  { getResult := .ok sampleGroup, createResult := .ok sampleGroup, deleteResult := true }

/-- Oracle: the fetch reports the resource absent; creation succeeds. -/
def hubAbsent : Hub :=
  { getResult := .error "ResourceGroupNotFound", createResult := .ok sampleGroup
    deleteResult := true }

/-- Oracle: the fetch reports the resource absent; creation fails. -/
def hubCreateFail : Hub :=
  { getResult := .error "ResourceGroupNotFound", createResult := .error "quota exceeded"
    deleteResult := true }

/-- Oracle: the resource exists; the delete call reports failure. -/
def hubDeleteFail : Hub :=
  { getResult := .ok sampleGroup, createResult := .ok sampleGroup, deleteResult := false }

/-- Oracle: the resource exists as `driftGroup`; mutations succeed. -/
def hubDrift : Hub :=
  { getResult := .ok driftGroup, createResult := .ok sampleGroup, deleteResult := true }

/-- Normal-mode context with a truthy ambient credential dict. -/
def ctxNormal : Ctx := { acct := [("subscription_id", "sub1")], test := false }

/-- Dry-run context with a truthy ambient credential dict. -/
def ctxTest : Ctx := { acct := [("subscription_id", "sub1")], test := true }

/-- Normal-mode context with a falsy (empty) ambient credential dict. -/
def ctxNoAcct : Ctx := { acct := [], test := false }

/-- Claim C3: when the `get` fetch succeeds and the tag diff between the
remote tags and the desired tags is empty, `present` returns
`result = true` with empty `changes` and issues no `create_or_update`
call; since `present` is a pure function of its arguments and of the
provider oracle, and no mutation was issued, a second identical
invocation against the unchanged oracle is the very same application and
yields the same `result = true`, `changes = {}`. -/
theorem c3_present_idempotent_no_diff (hub : Hub) (ctx : Ctx)
    (name location : String) (managed_by : Option String) (tags : Option Tags)
    (connection_auth : Option Auth) (g : Group)
    (hcred : connection_auth.isSome = true ∨ ctx.acct ≠ [])
    (hget : hub.getResult = .ok g)
    (hdiff : (deep_diff (g.tags.getD []) (tags.getD [])).isEmpty = true) :
    (present hub ctx name location managed_by tags connection_auth).ret.result = some true ∧
    (present hub ctx name location managed_by tags connection_auth).ret.changes = .empty ∧
    Call.createOrUpdate ∉ (present hub ctx name location managed_by tags connection_auth).calls := by
  have hc := cred_guard_false connection_auth ctx.acct hcred
  simp [present, hc, hget, hdiff]

theorem c3_witness :
    ((some sampleAuth).isSome = true ∨ ctxNormal.acct ≠ []) ∧
    hubMatch.getResult = .ok sampleGroup ∧
    (deep_diff (sampleGroup.tags.getD []) ((some sampleTags).getD [])).isEmpty = true ∧
    ((present hubMatch ctxNormal "rg1" "eastus" none (some sampleTags)
        (some sampleAuth)).ret.result = some true ∧
      (present hubMatch ctxNormal "rg1" "eastus" none (some sampleTags)
        (some sampleAuth)).ret.changes = .empty ∧
      Call.createOrUpdate ∉ (present hubMatch ctxNormal "rg1" "eastus" none (some sampleTags)
        (some sampleAuth)).calls) :=
  ⟨Or.inl rfl, rfl, by decide,
    c3_present_idempotent_no_diff hubMatch ctxNormal "rg1" "eastus" none (some sampleTags)
      (some sampleAuth) sampleGroup (Or.inl rfl) rfl (by decide)⟩

/-- Claim C4: `absent` on a resource whose fetch returns an `error` key
reports terminal success with the "already absent" comment, empty
`changes`, and never issues a delete call. -/
theorem c4_absent_already_absent (hub : Hub) (ctx : Ctx) (name : String)
    (connection_auth : Option Auth) (e : String)
    (hcred : connection_auth.isSome = true ∨ ctx.acct ≠ [])
    (hget : hub.getResult = .error e) :
    (absent hub ctx name connection_auth).ret.result = some true ∧
    (absent hub ctx name connection_auth).ret.comment =
      "Resource group " ++ name ++ " is already absent." ∧
    (absent hub ctx name connection_auth).ret.changes = .empty ∧
    Call.delete ∉ (absent hub ctx name connection_auth).calls := by
  have hc := cred_guard_false connection_auth ctx.acct hcred
  simp [absent, hc, hget]

theorem c4_witness :
    ((none : Option Auth).isSome = true ∨ ctxNormal.acct ≠ []) ∧
    hubAbsent.getResult = .error "ResourceGroupNotFound" ∧
    ((absent hubAbsent ctxNormal "rg2" none).ret.result = some true ∧
      (absent hubAbsent ctxNormal "rg2" none).ret.comment =
        "Resource group " ++ "rg2" ++ " is already absent." ∧
      (absent hubAbsent ctxNormal "rg2" none).ret.changes = .empty ∧
      Call.delete ∉ (absent hubAbsent ctxNormal "rg2" none).calls) :=
  ⟨Or.inr (by decide), rfl,
    c4_absent_already_absent hubAbsent ctxNormal "rg2" none "ResourceGroupNotFound"
      (Or.inr (by decide)) rfl⟩

/-- Claim C6: when `connection_auth` is not a dict (embedded as `none`)
and the ambient `ctx["acct"]` is falsy (empty), both `present` and
`absent` return the structured configuration failure — `result = false`,
the "connection information must be specified" comment, empty `changes` —
and issue no remote call at all. -/
theorem c6_missing_credentials (hub : Hub) (ctx : Ctx)
    (name location : String) (managed_by : Option String) (tags : Option Tags)
    (hacct : ctx.acct = []) :
    present hub ctx name location managed_by tags none =
      { ret := { name := name, result := some false
                 comment := "Connection information must be specified via acct or connection_auth dictionary!"
                 changes := .empty }
        calls := [] } ∧
    absent hub ctx name none =
      { ret := { name := name, result := some false
                 comment := "Connection information must be specified via acct or connection_auth dictionary!"
                 changes := .empty }
        calls := [] } := by
  constructor <;> simp [present, absent, hacct]

theorem c6_witness :
    ctxNoAcct.acct = [] ∧
    (present hubMatch ctxNoAcct "rg1" "eastus" none (some sampleTags) none =
      { ret := { name := "rg1", result := some false
                 comment := "Connection information must be specified via acct or connection_auth dictionary!"
                 changes := .empty }
        calls := [] } ∧
      absent hubMatch ctxNoAcct "rg1" none =
      { ret := { name := "rg1", result := some false
                 comment := "Connection information must be specified via acct or connection_auth dictionary!"
                 changes := .empty }
        calls := [] }) :=
  ⟨rfl, c6_missing_credentials hubMatch ctxNoAcct "rg1" "eastus" none (some sampleTags) rfl⟩

/-- Claim C8: for `absent` in normal mode on an existing resource, the
delete call's boolean decides the outcome: `true` gives `result = true`
with `changes = {"old": group, "new": {}}`; `false` gives
`result = false` with the failure comment and `changes` left empty. -/
theorem c8_delete_boolean_decides (hub : Hub) (ctx : Ctx) (name : String)
    (connection_auth : Option Auth) (g : Group)
    (hcred : connection_auth.isSome = true ∨ ctx.acct ≠ [])
    (hget : hub.getResult = .ok g)
    (hnormal : ctx.test = false) :
    (hub.deleteResult = true →
      (absent hub ctx name connection_auth).ret.result = some true ∧
      (absent hub ctx name connection_auth).ret.changes =
        .oldNew (.group g) (.tags [])) ∧
    (hub.deleteResult = false →
      (absent hub ctx name connection_auth).ret.result = some false ∧
      (absent hub ctx name connection_auth).ret.comment =
        "Failed to delete resource group " ++ name ++ "!" ∧
      (absent hub ctx name connection_auth).ret.changes = .empty) := by
  have hc := cred_guard_false connection_auth ctx.acct hcred
  cases hdel : hub.deleteResult <;> simp [absent, hc, hget, hnormal, hdel]

theorem c8_witness :
    ((some sampleAuth).isSome = true ∨ ctxNormal.acct ≠ []) ∧
    hubMatch.getResult = .ok sampleGroup ∧
    ctxNormal.test = false ∧
    ((hubMatch.deleteResult = true →
        (absent hubMatch ctxNormal "rg3" (some sampleAuth)).ret.result = some true ∧
        (absent hubMatch ctxNormal "rg3" (some sampleAuth)).ret.changes =
          .oldNew (.group sampleGroup) (.tags [])) ∧
      (hubMatch.deleteResult = false →
        (absent hubMatch ctxNormal "rg3" (some sampleAuth)).ret.result = some false ∧
        (absent hubMatch ctxNormal "rg3" (some sampleAuth)).ret.comment =
          "Failed to delete resource group " ++ "rg3" ++ "!" ∧
        (absent hubMatch ctxNormal "rg3" (some sampleAuth)).ret.changes = .empty)) :=
  ⟨Or.inl rfl, rfl, rfl,
    c8_delete_boolean_decides hubMatch ctxNormal "rg3" (some sampleAuth) sampleGroup
      (Or.inl rfl) rfl rfl⟩

/-- Claim C1: in normal (non-dry-run) mode, given usable credentials,
`present` issues the mutating `create_or_update` call if and only if the
`get` fetch returned an `error` key or the diff between the remote tags
and the desired tags (each defaulting to the empty dict) is non-empty. -/
theorem c1_mutation_iff_diff_or_absent (hub : Hub) (ctx : Ctx)
    (name location : String) (managed_by : Option String) (tags : Option Tags)
    (connection_auth : Option Auth)
    (hcred : connection_auth.isSome = true ∨ ctx.acct ≠ [])
    (hnormal : ctx.test = false) :
    Call.createOrUpdate ∈ (present hub ctx name location managed_by tags connection_auth).calls ↔
      ((∃ e, hub.getResult = .error e) ∨
        ∃ g, hub.getResult = .ok g ∧
          (deep_diff (g.tags.getD []) (tags.getD [])).isEmpty = false) := by
  have hc := cred_guard_false connection_auth ctx.acct hcred
  cases hget : hub.getResult with
  | ok g =>
    cases hd : (deep_diff (g.tags.getD []) (tags.getD [])).isEmpty <;>
      cases hcr : hub.createResult <;>
        simp [present, presentCreate, hc, hget, hnormal, hd, hcr]
  | error e =>
    cases hcr : hub.createResult <;>
      simp [present, presentCreate, hc, hget, hnormal, hcr]

theorem c1_witness :
    ((some sampleAuth).isSome = true ∨ ctxNormal.acct ≠ []) ∧
    ctxNormal.test = false ∧
    (Call.createOrUpdate ∈
        (present hubAbsent ctxNormal "rg1" "eastus" none (some sampleTags)
          (some sampleAuth)).calls ↔
      ((∃ e, hubAbsent.getResult = .error e) ∨
        ∃ g, hubAbsent.getResult = .ok g ∧
          (deep_diff (g.tags.getD []) ((some sampleTags).getD [])).isEmpty = false)) :=
  ⟨Or.inl rfl, rfl,
    c1_mutation_iff_diff_or_absent hubAbsent ctxNormal "rg1" "eastus" none (some sampleTags)
      (some sampleAuth) (Or.inl rfl) rfl⟩

/-- Claim C2: with dry-run mode set, neither `present` nor `absent` ever
issues a mutating call (`create_or_update` or `delete`), whatever the
credentials or the oracle; and — given usable credentials, so the fetch
actually happens — `present` returns the unknown tri-state (`None`)
whenever a tag diff exists or the fetch reported the resource absent, and
`absent` returns `None` whenever the fetch found the resource. (Without
usable credentials no fetch occurs and the configuration failure of C6 is
returned instead.) -/
theorem c2_dry_run_purity (hub : Hub) (ctx : Ctx)
    (name location : String) (managed_by : Option String) (tags : Option Tags)
    (connection_auth : Option Auth)
    (htest : ctx.test = true) :
    (Call.createOrUpdate ∉ (present hub ctx name location managed_by tags connection_auth).calls ∧
     Call.delete ∉ (present hub ctx name location managed_by tags connection_auth).calls ∧
     Call.createOrUpdate ∉ (absent hub ctx name connection_auth).calls ∧
     Call.delete ∉ (absent hub ctx name connection_auth).calls) ∧
    ((connection_auth.isSome = true ∨ ctx.acct ≠ []) →
      (((∃ e, hub.getResult = .error e) ∨
          ∃ g, hub.getResult = .ok g ∧
            (deep_diff (g.tags.getD []) (tags.getD [])).isEmpty = false) →
        (present hub ctx name location managed_by tags connection_auth).ret.result = none) ∧
      ((∃ g, hub.getResult = .ok g) →
        (absent hub ctx name connection_auth).ret.result = none)) := by
  by_cases hc : (connection_auth.isNone && ctx.acct.isEmpty) = true
  · refine ⟨by simp [present, absent, hc], fun hcred => absurd hc ?_⟩
    simp [cred_guard_false connection_auth ctx.acct hcred]
  · rw [Bool.not_eq_true] at hc
    cases hget : hub.getResult with
    | ok g =>
      cases hd : (deep_diff (g.tags.getD []) (tags.getD [])).isEmpty <;>
        simp [present, absent, hc, hget, htest, hd]
    | error e =>
      simp [present, absent, hc, hget, htest]

theorem c2_witness :
    ctxTest.test = true ∧
    ((Call.createOrUpdate ∉
        (present hubAbsent ctxTest "rg1" "eastus" none (some sampleTags)
          (some sampleAuth)).calls ∧
      Call.delete ∉
        (present hubAbsent ctxTest "rg1" "eastus" none (some sampleTags)
          (some sampleAuth)).calls ∧
      Call.createOrUpdate ∉ (absent hubAbsent ctxTest "rg1" (some sampleAuth)).calls ∧
      Call.delete ∉ (absent hubAbsent ctxTest "rg1" (some sampleAuth)).calls) ∧
     (((some sampleAuth).isSome = true ∨ ctxTest.acct ≠ []) →
       (((∃ e, hubAbsent.getResult = .error e) ∨
           ∃ g, hubAbsent.getResult = .ok g ∧
             (deep_diff (g.tags.getD []) ((some sampleTags).getD [])).isEmpty = false) →
         (present hubAbsent ctxTest "rg1" "eastus" none (some sampleTags)
           (some sampleAuth)).ret.result = none) ∧
       ((∃ g, hubAbsent.getResult = .ok g) →
         (absent hubAbsent ctxTest "rg1" (some sampleAuth)).ret.result = none))) :=
  ⟨rfl,
    c2_dry_run_purity hubAbsent ctxTest "rg1" "eastus" none (some sampleTags)
      (some sampleAuth) rfl⟩

/-- Claim C7: when `present` reaches the mutation step (normal mode,
usable credentials, and either the fetch reported an error or the tag
diff is non-empty) and `create_or_update` returns an `error` key, the
result is a terminal failure whose comment embeds the provider error
string and whose `changes` is the empty dict (reset at group.py lines
179-180 because `ret["result"]` is still `False` there). -/
theorem c7_create_failure_resets_changes (hub : Hub) (ctx : Ctx)
    (name location : String) (managed_by : Option String) (tags : Option Tags)
    (connection_auth : Option Auth) (e : String)
    (hcred : connection_auth.isSome = true ∨ ctx.acct ≠ [])
    (hnormal : ctx.test = false)
    (hmut : (∃ er, hub.getResult = .error er) ∨
      ∃ g, hub.getResult = .ok g ∧
        (deep_diff (g.tags.getD []) (tags.getD [])).isEmpty = false)
    (hcreate : hub.createResult = .error e) :
    (present hub ctx name location managed_by tags connection_auth).ret.result = some false ∧
    (present hub ctx name location managed_by tags connection_auth).ret.comment =
      "Failed to create resource group " ++ name ++ "! (" ++ e ++ ")" ∧
    (present hub ctx name location managed_by tags connection_auth).ret.changes = .empty := by
  have hc := cred_guard_false connection_auth ctx.acct hcred
  rcases hmut with ⟨er, hget⟩ | ⟨g, hget, hd⟩
  · simp [present, presentCreate, hc, hget, hnormal, hcreate]
  · simp [present, presentCreate, hc, hget, hnormal, hd, hcreate]

theorem c7_witness :
    ((some sampleAuth).isSome = true ∨ ctxNormal.acct ≠ []) ∧
    ctxNormal.test = false ∧
    ((∃ er, hubCreateFail.getResult = .error er) ∨
      ∃ g, hubCreateFail.getResult = .ok g ∧
        (deep_diff (g.tags.getD []) ((some sampleTags).getD [])).isEmpty = false) ∧
    hubCreateFail.createResult = .error "quota exceeded" ∧
    ((present hubCreateFail ctxNormal "rg1" "eastus" none (some sampleTags)
        (some sampleAuth)).ret.result = some false ∧
      (present hubCreateFail ctxNormal "rg1" "eastus" none (some sampleTags)
        (some sampleAuth)).ret.comment =
        "Failed to create resource group " ++ "rg1" ++ "! (" ++ "quota exceeded" ++ ")" ∧
      (present hubCreateFail ctxNormal "rg1" "eastus" none (some sampleTags)
        (some sampleAuth)).ret.changes = .empty) :=
  ⟨Or.inl rfl, rfl, Or.inl ⟨"ResourceGroupNotFound", rfl⟩, rfl,
    c7_create_failure_resets_changes hubCreateFail ctxNormal "rg1" "eastus" none
      (some sampleTags) (some sampleAuth) "quota exceeded" (Or.inl rfl) rfl
      (Or.inl ⟨"ResourceGroupNotFound", rfl⟩) rfl⟩

/-- Claim C9: in dry-run mode with usable credentials, `present` reports
`changes = {"old": current tags, "new": desired tags}` (the raw `tags`
argument, which may be `None`) when the resource exists with a non-empty
tag diff, and `changes = {"old": {}, "new": {"name", "location",
"managed_by", "tags"}}` — the full desired spec — when the fetch
reported an `error` key. -/
theorem c9_dry_run_changes_shape (hub : Hub) (ctx : Ctx)
    (name location : String) (managed_by : Option String) (tags : Option Tags)
    (connection_auth : Option Auth)
    (hcred : connection_auth.isSome = true ∨ ctx.acct ≠ [])
    (htest : ctx.test = true) :
    (∀ g, hub.getResult = .ok g →
      (deep_diff (g.tags.getD []) (tags.getD [])).isEmpty = false →
      (present hub ctx name location managed_by tags connection_auth).ret.changes =
        .oldNew (.tags (g.tags.getD [])) (ChangeVal.ofOptTags tags)) ∧
    (∀ e, hub.getResult = .error e →
      (present hub ctx name location managed_by tags connection_auth).ret.changes =
        .oldNew (.tags []) (.spec name location managed_by tags)) := by
  have hc := cred_guard_false connection_auth ctx.acct hcred
  constructor
  · intro g hget hd
    simp [present, hc, hget, htest, hd]
  · intro e hget
    simp [present, hc, hget, htest]

theorem c9_witness :
    ((some sampleAuth).isSome = true ∨ ctxTest.acct ≠ []) ∧
    ctxTest.test = true ∧
    ((∀ g, hubAbsent.getResult = .ok g →
        (deep_diff (g.tags.getD []) ((some sampleTags).getD [])).isEmpty = false →
        (present hubAbsent ctxTest "rg1" "eastus" none (some sampleTags)
          (some sampleAuth)).ret.changes =
          .oldNew (.tags (g.tags.getD [])) (ChangeVal.ofOptTags (some sampleTags))) ∧
      (∀ e, hubAbsent.getResult = .error e →
        (present hubAbsent ctxTest "rg1" "eastus" none (some sampleTags)
          (some sampleAuth)).ret.changes =
          .oldNew (.tags []) (.spec "rg1" "eastus" none (some sampleTags)))) :=
  ⟨Or.inl rfl, rfl,
    c9_dry_run_changes_shape hubAbsent ctxTest "rg1" "eastus" none (some sampleTags)
      (some sampleAuth) (Or.inl rfl) rfl⟩

/-- Claim C10: when the fetch succeeds, the branch `present` takes
depends only on the tags of the remote state and of the desired spec: a
remote group whose `location` or `managed_by` differs from the desired
values but whose tags produce an empty diff still yields `result = true`
with empty `changes` and no `create_or_update` call, and replacing the
fetched group by any group with the same tags leaves the whole outcome
unchanged — location / managed_by drift is never detected or
corrected. -/
theorem c10_branch_depends_only_on_tags (hub : Hub) (ctx : Ctx)
    (name location : String) (managed_by : Option String) (tags : Option Tags)
    (connection_auth : Option Auth) (g : Group)
    (hcred : connection_auth.isSome = true ∨ ctx.acct ≠ [])
    (hget : hub.getResult = .ok g)
    (hdiff : (deep_diff (g.tags.getD []) (tags.getD [])).isEmpty = true)
    (hdrift : g.location ≠ location ∨ g.managed_by ≠ managed_by) :
    (present hub ctx name location managed_by tags connection_auth).ret.result = some true ∧
    (present hub ctx name location managed_by tags connection_auth).ret.changes = .empty ∧
    Call.createOrUpdate ∉ (present hub ctx name location managed_by tags connection_auth).calls ∧
    (∀ g2 : Group, g2.tags = g.tags →
      present { hub with getResult := .ok g2 } ctx name location managed_by tags connection_auth =
        present hub ctx name location managed_by tags connection_auth) := by
  have hc := cred_guard_false connection_auth ctx.acct hcred
  refine ⟨?_, ?_, ?_, ?_⟩
  · simp [present, hc, hget, hdiff]
  · simp [present, hc, hget, hdiff]
  · simp [present, hc, hget, hdiff]
  · intro g2 hg2
    simp [present, hc, hget, hg2, hdiff]

theorem c10_witness :
    ((some sampleAuth).isSome = true ∨ ctxNormal.acct ≠ []) ∧
    hubDrift.getResult = .ok driftGroup ∧
    (deep_diff (driftGroup.tags.getD []) ((some sampleTags).getD [])).isEmpty = true ∧
    (driftGroup.location ≠ "eastus" ∨ driftGroup.managed_by ≠ none) ∧
    ((present hubDrift ctxNormal "rg1" "eastus" none (some sampleTags)
        (some sampleAuth)).ret.result = some true ∧
      (present hubDrift ctxNormal "rg1" "eastus" none (some sampleTags)
        (some sampleAuth)).ret.changes = .empty ∧
      Call.createOrUpdate ∉ (present hubDrift ctxNormal "rg1" "eastus" none (some sampleTags)
        (some sampleAuth)).calls ∧
      (∀ g2 : Group, g2.tags = driftGroup.tags →
        present { hubDrift with getResult := .ok g2 } ctxNormal "rg1" "eastus" none
            (some sampleTags) (some sampleAuth) =
          present hubDrift ctxNormal "rg1" "eastus" none (some sampleTags)
            (some sampleAuth))) :=
  ⟨Or.inl rfl, rfl, by decide, Or.inl (by decide),
    c10_branch_depends_only_on_tags hubDrift ctxNormal "rg1" "eastus" none (some sampleTags)
      (some sampleAuth) driftGroup (Or.inl rfl) rfl (by decide) (Or.inl (by decide))⟩

/-- Claim C5: the uniform never-raise accessor contract is broken by the
code. On a SUCCESSFUL provider call, `lease` executes
`result = policy.as_dict()` (container.py line 484) where the name
`policy` was never bound in the function — the call result was bound to
`container` — so a `NameError` escapes the accessor boundary instead of
the container's field mapping being returned; and
`extend_immutability_policy` / `lock_immutability_policy` return the raw
provider object (`result = policy`, lines 343 and 565) rather than its
field mapping, while `get` does return `container.as_dict()`. -/
theorem c5_accessor_contract_violations :
    StorageContainer.lease
        { createObjectModel := Except.ok ()
          leaseCall := Except.ok { fields := [("name", "c1")] } } =
      StorageContainer.PyOutcome.exn "NameError" ∧
    StorageContainer.extend_immutability_policy
        { policyCall := Except.ok { fields := [("etag", "abc")] } } =
      StorageContainer.PyOutcome.ret (.obj { fields := [("etag", "abc")] }) ∧
    StorageContainer.lock_immutability_policy
        { policyCall := Except.ok { fields := [("etag", "abc")] } } =
      StorageContainer.PyOutcome.ret (.obj { fields := [("etag", "abc")] }) ∧
    StorageContainer.get
        { policyCall := Except.ok { fields := [("name", "c1")] } } =
      StorageContainer.PyOutcome.ret (.dict [("name", "c1")]) :=
  ⟨rfl, rfl, rfl, rfl⟩
